import Mathlib

/-!
Verification development for the node-manager block-ingestion pipeline.

The repository contains two variants of the mindreader plugin:
`src/mindreader/mindreader.go` (embedded below in namespace `Mindreader`) and a
second variant in `src/unnamed/part_001` (namespace `Part001`), plus the nodeos
superviser monitor in `src/unnamed/part_000` (namespace `Nodeos`).  The Archiver
implementation itself is not part of the sources, only its unit tests are; its
`storeBlock` decision procedure is therefore modelled from the specification in
namespace `ArchiverModel`.

Machine integers of the Go code (uint64 block numbers, durations in
seconds) are embedded as `Nat`; none of the embedded operations can overflow on
the inputs considered.  Fallible operations return `Option` values.  Goroutine
interleavings are abstracted by explicit run parameters (for instance the time
at which the archiver signals `Terminated`, or the observed value of
`IsTerminating()` while a given block is being consumed).
-/

/-- A block as it flows through the mindreader pipeline: block number, id,
previous id and timestamp (`bstream.Block` fields used by the embedded code).
Ids are embedded as naturals; timestamps are seconds. -/
structure Blk where
  num : Nat
  id : Nat
  previousId : Nat
  timestamp : Nat
  deriving DecidableEq

/-- Outcome of the close-of-channel branch of `consumeReadFlow`:
whether `archiver.Shutdown(nil)` was called, and the time at which the
consumer loop returns (`none` when it never returns). -/
structure CloseOutcome where
  archiverShutdown : Bool
  exitAt : Option Nat
  deriving DecidableEq

/-- Observations made while the consumer loop handles one received block:
whether `archiver.StoreBlock` returns an error for it, and the value of
`p.IsTerminating()` while it is being handled. -/
structure BlockEvent where
  storeErr : Bool
  terminating : Bool
  deriving DecidableEq

/-- Which of the two downstream calls the consumer loop performed on one
received block. -/
structure BlockActions where
  storeInvoked : Bool
  pushInvoked : Bool
  deriving DecidableEq

/-- Result of one call to `consoleReader.ReadBlock()` as seen by the ingest
loop: a block, end of stream, or another error. -/
inductive ReadResult where
  | blockRead (b : Blk)
  | eof
  | err (msg : String)
  deriving DecidableEq

/-- State of the ingest goroutine when it exits: the error passed to
`Shutdown` if any, the content left in the `lines` channel, and whether the
`blocks` channel was closed. -/
structure IngestOutcome where
  shutdownErr : Option String
  linesRemaining : List String
  blocksClosed : Bool
  deriving DecidableEq

/-- Ordered observable events of one `readOneMessage` call: invoking the
head-block-update hook, sending the block on the `blocks` channel, and
requesting a non-blocking shutdown with nil error (`go p.Shutdown(nil)`). -/
inductive IngestEvent where
  | headUpdate
  | push
  | shutdown
  deriving DecidableEq

/-- Character class of the Go regular expression word class `\w`
(`[0-9A-Za-z_]`, ASCII only under RE2 defaults). -/
def isWordChar (c : Char) : Bool :=
  c.isAlphanum || c == '_'

/-- Test of the anchored Go regular expression `^[\w\-]+$` used by both
`validateOneBlockSuffix` variants (`oneblockSuffixRegexp`): at least one
character, all of them word characters or a dash. -/
def oneblockSuffixMatch (s : String) : Bool :=
  !s.isEmpty && s.toList.all (fun c => isWordChar c || c == '-')

namespace Mindreader

/-- Close-of-channel branch of `consumeReadFlow` in
`src/mindreader/mindreader.go` (lines 255-265).  When the `blocks` channel is
closed the loop calls `p.archiver.Shutdown(nil)` and then blocks on a `select`
whose single case is `<-p.archiver.Terminated()`: it returns exactly when the
archiver signals terminated, and never returns if it never does.
`archiverTerminatedAt` is the instant of that signal during the run, `none`
when the archiver never signals terminated. -/
def consumeCloseFlow (archiverTerminatedAt : Option Nat) : CloseOutcome :=
  { archiverShutdown := true, exitAt := archiverTerminatedAt }

/-- Per-block body of `consumeReadFlow` in `src/mindreader/mindreader.go`
(lines 267-289).  `archiver.StoreBlock` is always invoked; on a store error
while not terminating the loop issues `go p.Shutdown(...)` and `continue`s
(skipping the push for this block only); otherwise, when a block-stream server
is configured, `blockStreamServer.PushBlock` is invoked. -/
def consumeStep (hasServer : Bool) (e : BlockEvent) : BlockActions :=
  if e.storeErr && !e.terminating then
    { storeInvoked := true, pushInvoked := false }
  else
    { storeInvoked := true, pushInvoked := hasServer }

/-- The consumer loop of `src/mindreader/mindreader.go` over a run of received
blocks: no state is carried from one block to the next (there is no drop
flag in this variant). -/
def consumeRun (hasServer : Bool) (events : List BlockEvent) : List BlockActions :=
  events.map (consumeStep hasServer)

/-- Ingest goroutine of `src/mindreader/mindreader.go` `launch` (lines
205-222) together with `drainMessages` (lines 293-297).  The loop repeatedly
calls `readOneMessage`; on a block it continues; on `io.EOF` it closes
`blocks` and returns; on any other error it calls `p.Shutdown(err)`, drains
the `lines` channel via `drainMessages`, closes `blocks` and returns.
`lines` is the content of the `lines` channel when the loop exits;
`linesRemaining` is what is left in it (empty when it was drained). -/
def ingestLoop (lines : List String) : List ReadResult → IngestOutcome
  | [] => { shutdownErr := none, linesRemaining := lines, blocksClosed := false }
  | ReadResult.blockRead _ :: rest => ingestLoop lines rest
  | ReadResult.eof :: _ =>
      { shutdownErr := none, linesRemaining := lines, blocksClosed := true }
  | ReadResult.err m :: _ =>
      { shutdownErr := some m, linesRemaining := [], blocksClosed := true }

/-- The `readOneMessage` of `src/mindreader/mindreader.go` (lines 299-317) for
one successfully read block, as its ordered event trace: invoke the
head-block-update hook when installed, send the block on `blocks`, then
request a non-blocking nil shutdown when `stopBlock != 0`, the block number
has reached `stopBlock`, and the plugin is not already terminating.  This
variant has no start gate: `startBlockNum` is handed to the Archiver and never
consulted here. -/
def readOneMessage (stopBlock : Nat) (hasHeadUpdate terminating : Bool) (b : Blk) :
    List IngestEvent :=
  (if hasHeadUpdate then [IngestEvent.headUpdate] else []) ++ [IngestEvent.push] ++
    (if stopBlock ≠ 0 ∧ stopBlock ≤ b.num ∧ terminating = false then
      [IngestEvent.shutdown] else [])

/-- `LogLine` of `src/mindreader/mindreader.go` (lines 320-325): if the plugin
is terminating, return without sending; otherwise enqueue the line on the
`lines` channel. -/
def logLine (terminating : Bool) (lines : List String) (line : String) : List String :=
  if terminating then lines else lines ++ [line]

/-- `validateOneBlockSuffix` of `src/mindreader/mindreader.go` (lines
140-148): an empty suffix is an error, and so is one that does not match
`^[\w\-]+$`.  Returns the error message, `none` on success. -/
def validateOneBlockSuffix (suffix : String) : Option String :=
  if suffix = "" then some "oneblock_suffix cannot be empty"
  else if oneblockSuffixMatch suffix = false then
    some "oneblock_suffix contains invalid characters"
  else none

end Mindreader

namespace Part001

/-- Close-of-channel branch of `consumeReadFlow` in `src/unnamed/part_001`
(lines 879-891).  When the `blocks` channel is closed the loop calls
`p.archiver.Shutdown(nil)` and then blocks on a `select` with two cases:
`<-time.After(p.waitUploadCompleteOnShutdown)` and
`<-p.archiver.Terminated()`; it returns as soon as either fires. -/
def consumeCloseFlow (waitUploadCompleteOnShutdown : Nat)
    (archiverTerminatedAt : Option Nat) : CloseOutcome :=
  { archiverShutdown := true,
    exitAt := some (match archiverTerminatedAt with
      | none => waitUploadCompleteOnShutdown
      | some t => min t waitUploadCompleteOnShutdown) }

/-- Consumer loop of `src/unnamed/part_001` `consumeReadFlow` (lines 871-921)
over a run of received blocks, carrying the `dropBlocks` flag.  A dropped
block triggers neither `StoreBlock` nor `PushBlock`; a failing `StoreBlock`
while not terminating sets `dropBlocks` and skips the push; otherwise the
block is pushed to the block-stream server when one is configured. -/
def consumeRun (hasServer : Bool) : Bool → List BlockEvent → List BlockActions
  | _, [] => []
  | true, _ :: rest =>
      { storeInvoked := false, pushInvoked := false } :: consumeRun hasServer true rest
  | false, e :: rest =>
      if e.storeErr && !e.terminating then
        { storeInvoked := true, pushInvoked := false } :: consumeRun hasServer true rest
      else
        { storeInvoked := true, pushInvoked := hasServer } :: consumeRun hasServer false rest

/-- Modelled from the spec: the optional start gate of the ingest loop.  The
`BlockNumberGate` implementation is not among the sources; the spec states a
block passes the gate when `num ≥ start_block`. -/
def startGatePass (startBlock : Nat) (b : Blk) : Bool :=
  startBlock ≤ b.num

/-- The `readOneMessage` of `src/unnamed/part_001` (lines 923-950) for one
successfully read and transformed block, as its ordered event trace: a block
that fails the start gate is discarded (`return nil`) before the hook and the
push; a passing block triggers the hook when installed, is sent on `blocks`,
and then a non-blocking nil shutdown is requested when `stopBlock != 0`, the
block number has reached `stopBlock`, and the plugin is not terminating. -/
def readOneMessage (startBlock stopBlock : Nat) (hasHeadUpdate terminating : Bool)
    (b : Blk) : List IngestEvent :=
  if startGatePass startBlock b = false then []
  else
    (if hasHeadUpdate then [IngestEvent.headUpdate] else []) ++ [IngestEvent.push] ++
      (if stopBlock ≠ 0 ∧ stopBlock ≤ b.num ∧ terminating = false then
        [IngestEvent.shutdown] else [])

/-- `validateOneBlockSuffix` of `src/unnamed/part_001` (lines 755-760): only a
non-empty suffix that fails `^[\w\-]+$` is an error; the empty suffix is
accepted.  Returns the error message, `none` on success. -/
def validateOneBlockSuffix (suffix : String) : Option String :=
  if suffix ≠ "" ∧ oneblockSuffixMatch suffix = false then
    some "oneblock_suffix contains invalid characters"
  else none

end Part001

namespace Nodeos

/-- Observation made by one iteration of the superviser `Monitor` loop of
`src/unnamed/part_000`: whether the node is running, whether `GetInfo`
succeeded, and — on success — the value of `time.Since(lastHeadBlockTime)`
at the readiness check (seconds). -/
structure Tick where
  running : Bool
  getInfoOk : Bool
  timeSinceHead : Nat
  deriving DecidableEq

/-- Monitor loop state relevant to readiness: the consecutive `GetInfo`
failure counter and the readiness probe boolean. -/
structure MonState where
  failCount : Nat
  ready : Bool
  deriving DecidableEq

/-- One iteration of `Monitor` in `src/unnamed/part_000` (lines 35-68),
restricted to the failure counter and the readiness probe.  If the node is not
running the counter resets; on a `GetInfo` error the counter increments and
readiness is turned off when the counter exceeds 5; on success the counter
resets and readiness is turned on when `ReadinessMaxLatency` is zero or the
time since the head block is strictly below it (readiness is left unchanged
otherwise).  `setReadinessProbeOn`/`Off` are compare-and-set; modelled as
plain assignment. -/
def monitorTick (maxLatency : Nat) (st : MonState) (t : Tick) : MonState :=
  if t.running = false then { st with failCount := 0 }
  else if t.getInfoOk = false then
    { failCount := st.failCount + 1,
      ready := if 5 < st.failCount + 1 then false else st.ready }
  else
    { failCount := 0,
      ready := if maxLatency = 0 ∨ t.timeSinceHead < maxLatency then true else st.ready }

/-- A tick on which the node runs and `GetInfo` fails. -/
def failTick : Tick :=
  { running := true, getInfoOk := false, timeSinceHead := 0 }

end Nodeos

namespace ArchiverModel

/-- Modelled from the spec: the Bundler state (§3, §4.1) restricted to what
`storeBlock` consults — the current lower bound of the open bundle and the
accepted one-block files not yet merged out, in arrival order. -/
structure Bundler where
  lower : Nat
  files : List Blk
  deriving DecidableEq

/-- Modelled from the spec: the Archiver state (§3) — bundle size, merge
threshold age (seconds), batch mode, the optional open bundler and the
`currently_merging` flag.  The Archiver implementation is not among the
sources; only its unit tests in `src/unnamed/part_001` are. -/
structure Archiver where
  bundleSize : Nat
  mergeThresholdAge : Nat
  batchMode : Bool
  bundler : Option Bundler
  currentlyMerging : Bool
  deriving DecidableEq

/-- Counters of the Archiver I/O side effects of `storeBlock`: writes to the
mergeable lane, writes of one-block files to the uploadable lane, merges, and
deleted one-block files. -/
structure ArchWrites where
  mergeableStores : Nat
  uploadableStores : Nat
  merges : Nat
  deletions : Nat
  deriving DecidableEq

/-- Sum of two side-effect counters. -/
def addWrites (a b : ArchWrites) : ArchWrites :=
  { mergeableStores := a.mergeableStores + b.mergeableStores,
    uploadableStores := a.uploadableStores + b.uploadableStores,
    merges := a.merges + b.merges,
    deletions := a.deletions + b.deletions }

/-- Modelled from the spec: the connection rule of §4.1 — consecutive files
are linked by `previous_id`. -/
def connectedChain : List Blk → Bool
  | [] => true
  | [_] => true
  | a :: b :: rest => (b.previousId == a.id) && connectedChain (b :: rest)

/-- Modelled from the spec: `bundle_complete_size` of §4.1 — the bundle
`[lower, lower+size)` is complete when a file at or beyond the boundary has
been seen and the accepted files below the boundary form a connected chain;
the files below the boundary are then emitted. -/
def bundleComplete (size : Nat) (bd : Bundler) : Option (List Blk) :=
  let boundary := bd.lower + size
  let below := bd.files.filter (fun f => f.num < boundary)
  if bd.files.any (fun f => boundary ≤ f.num) && connectedChain below then
    some below
  else none

/-- Number of pending files held by an optional bundler. -/
def pendingCount : Option Bundler → Nat
  | none => 0
  | some bd => bd.files.length

/-- Modelled from the spec: `store_block` of §4.3 (the Archiver implementation
is absent from the sources).  A block is routed to the mergeable lane when in
batch mode, or when it is older than `merge_threshold_age` and either a merge
is in progress or no bundler is open yet (opening one at the block's number
rounded down to a multiple of the bundle size, §4.3 rule 2).  A block routed
to the mergeable lane whose number is below the open bundle's lower bound is
skipped, as pinned by `TestArchiver_StoreBlock_BundleInclusiveLowerBlock`.
After a mergeable store, a completed bundle is merged, its files deleted, and
the bundler advanced past the boundary.  Any other block takes the live-tip
path: the pending mergeable files are first flushed to the uploadable lane as
one-block files (the transition of §4.3 step d, pinned by
`TestArchiver_StoreBlockNewBlocksWithExistingBundlerBlocks` and
`TestArchiver_OldBlockToNewBlocksPassThrough`: flushed files are downloaded
and re-stored, not deleted), the bundler is dropped, and the block itself is
stored to the uploadable lane. -/
def storeBlock (now : Nat) (a : Archiver) (b : Blk) : Archiver × ArchWrites :=
  let isOld := a.mergeThresholdAge < now - b.timestamp
  if a.batchMode || (isOld && (a.currentlyMerging || a.bundler.isNone)) then
    match a.bundler with
    | some bd =>
        if b.num < bd.lower then
          ({ a with currentlyMerging := true },
           { mergeableStores := 0, uploadableStores := 0, merges := 0, deletions := 0 })
        else
          let bd2 : Bundler := { bd with files := bd.files ++ [b] }
          match bundleComplete a.bundleSize bd2 with
          | some emitted =>
              let bd3 : Bundler :=
                { lower := bd2.lower + a.bundleSize,
                  files := bd2.files.filter (fun f => bd2.lower + a.bundleSize ≤ f.num) }
              ({ a with bundler := some bd3, currentlyMerging := true },
               { mergeableStores := 1, uploadableStores := 0, merges := 1,
                 deletions := emitted.length })
          | none =>
              ({ a with bundler := some bd2, currentlyMerging := true },
               { mergeableStores := 1, uploadableStores := 0, merges := 0, deletions := 0 })
    | none =>
        let bd2 : Bundler := { lower := b.num / a.bundleSize * a.bundleSize, files := [b] }
        ({ a with bundler := some bd2, currentlyMerging := true },
         { mergeableStores := 1, uploadableStores := 0, merges := 0, deletions := 0 })
  else
    ({ a with bundler := none },
     { mergeableStores := 0, uploadableStores := pendingCount a.bundler + 1,
       merges := 0, deletions := 0 })

/-- Feed a run of blocks through `storeBlock`, accumulating the side-effect
counters, as the unit tests of `src/unnamed/part_001` do. -/
def storeBlocks (now : Nat) (a : Archiver) (bs : List Blk) : Archiver × ArchWrites :=
  bs.foldl
    (fun acc b =>
      let r := storeBlock now acc.1 b
      (r.1, addWrites acc.2 r.2))
    (a, { mergeableStores := 0, uploadableStores := 0, merges := 0, deletions := 0 })

end ArchiverModel

/-- The input of `TestArchiver_OldBlockToNewBlocksPassThrough` in
`src/unnamed/part_001` (spec scenario S5): one block older than the merge
threshold (year-2000 timestamp, embedded as 0) followed by seven fresh blocks
(timestamp `now`), four of which share number 6 with distinct ids. -/
def s5Blocks : List Blk :=
  [ { num := 1, id := 1, previousId := 0, timestamp := 0 },
    { num := 2, id := 2, previousId := 1, timestamp := 1000000000 },
    { num := 3, id := 3, previousId := 2, timestamp := 1000000000 },
    { num := 4, id := 4, previousId := 3, timestamp := 1000000000 },
    { num := 6, id := 6, previousId := 4, timestamp := 1000000000 },
    { num := 6, id := 7, previousId := 6, timestamp := 1000000000 },
    { num := 6, id := 8, previousId := 7, timestamp := 1000000000 },
    { num := 6, id := 9, previousId := 8, timestamp := 1000000000 } ]

/-- Archiver of scenario S5: bundle size 5, merge threshold age one hour
(3600 s), not in batch mode, no bundler open. -/
def s5Archiver : ArchiverModel.Archiver :=
  { bundleSize := 5, mergeThresholdAge := 3600, batchMode := false,
    bundler := none, currentlyMerging := false }

/-- Side-effect counters produced by scenario S5 at `now = 1000000000`. -/
def s5Writes : ArchiverModel.ArchWrites :=
  (ArchiverModel.storeBlocks 1000000000 s5Archiver s5Blocks).2

/-- C1 counterexample: in the `consumeReadFlow` of `src/mindreader/mindreader.go`
the shutdown `select` has the single case `<-p.archiver.Terminated()`, so in a
run where the archiver never signals terminated the consumer loop shuts the
archiver down but never exits — contradicting the claim that every such run
still exits after the `wait_upload_complete_on_shutdown` bound. -/
theorem consumeCloseFlow_never_exits_counterexample :
    Mindreader.consumeCloseFlow none =
      { archiverShutdown := true, exitAt := none } := rfl

/-- C1 (amended): on channel close both consumer loops shut down the Archiver;
the `src/unnamed/part_001` loop exits within `wait_upload_complete_on_shutdown`
in every run and exactly at the bound when the archiver never signals
terminated, while the `src/mindreader/mindreader.go` loop exits exactly when
(and only when) the archiver signals terminated, with no timeout. -/
theorem consumeCloseFlow_bounded_exit (wait : Nat) (archiverTerminatedAt : Option Nat) :
    (Part001.consumeCloseFlow wait archiverTerminatedAt).archiverShutdown = true ∧
    (∃ t, (Part001.consumeCloseFlow wait archiverTerminatedAt).exitAt = some t ∧ t ≤ wait) ∧
    (Part001.consumeCloseFlow wait none).exitAt = some wait ∧
    (Mindreader.consumeCloseFlow archiverTerminatedAt).exitAt = archiverTerminatedAt := by
  refine ⟨rfl, ?_, rfl, rfl⟩
  cases archiverTerminatedAt with
  | none => exact ⟨wait, rfl, Nat.le_refl wait⟩
  | some t => exact ⟨min t wait, rfl, Nat.min_le_right t wait⟩

/-- C2 counterexample: in the `consumeReadFlow` of
`src/mindreader/mindreader.go` there is no drop flag — after a first
`StoreBlock` failure while not terminating, the next received block still has
both `StoreBlock` and `PushBlock` invoked on it. -/
theorem consumeRun_after_error_counterexample :
    Mindreader.consumeRun true
      [{ storeErr := true, terminating := false },
       { storeErr := false, terminating := false }] =
      [{ storeInvoked := true, pushInvoked := false },
       { storeInvoked := true, pushInvoked := true }] := rfl

/-- Once the drop flag of the `part_001` consumer loop is set, every further
block is dropped without invoking `StoreBlock` or `PushBlock`. -/
theorem part001_consumeRun_dropped (hasServer : Bool) (events : List BlockEvent) :
    Part001.consumeRun hasServer true events =
      events.map (fun _ => { storeInvoked := false, pushInvoked := false }) := by
  induction events with
  | nil => rfl
  | cons e rest ih => simp [Part001.consumeRun, ih]

/-- C2 (amended): in the `src/unnamed/part_001` consumer loop, after the first
`StoreBlock` call that fails while the plugin is not terminating, the drop
flag is set and every subsequently received block is dropped — neither
`archiver.StoreBlock` nor `blockStreamServer.PushBlock` is invoked on it
(whereas the `src/mindreader/mindreader.go` loop keeps storing and pushing
subsequent blocks individually, as the counterexample shows). -/
theorem consumeRun_drop_after_store_error (hasServer : Bool) (pre post : List BlockEvent)
    (e : BlockEvent) (hs : e.storeErr = true) (ht : e.terminating = false) :
    ∀ d : Bool,
      List.drop (pre.length + 1) (Part001.consumeRun hasServer d (pre ++ e :: post)) =
        post.map (fun _ => { storeInvoked := false, pushInvoked := false }) := by
  induction pre with
  | nil =>
      intro d
      cases d with
      | false => simp [Part001.consumeRun, hs, ht, part001_consumeRun_dropped]
      | true => simp [Part001.consumeRun, part001_consumeRun_dropped]
  | cons p pre ih =>
      intro d
      cases d with
      | false =>
          by_cases hc : (p.storeErr && !p.terminating) = true
          · simpa [Part001.consumeRun, hc] using ih true
          · simpa [Part001.consumeRun, hc] using ih false
      | true => simpa [Part001.consumeRun] using ih true

/-- C2 witness: a concrete run — a failing store on the first block makes the
second block dropped. -/
theorem consumeRun_drop_after_store_error_witness :
    List.drop 1 (Part001.consumeRun true false
      [{ storeErr := true, terminating := false },
       { storeErr := false, terminating := false }]) =
      [{ storeInvoked := false, pushInvoked := false }] :=
  consumeRun_drop_after_store_error true [] [{ storeErr := false, terminating := false }]
    { storeErr := true, terminating := false } rfl rfl false

/-- C3: the ingest loop of `src/mindreader/mindreader.go` on a non-EOF reader
error requests shutdown with that error, drains every remaining entry of the
`lines` channel and closes `blocks`; but on `io.EOF` it closes `blocks` and
exits with the `lines` entries still in place — the EOF exit path performs no
drain, although the spec's design note requires every exit path to drain
`lines` before closing. -/
theorem ingestLoop_eof_drain_divergence :
    Mindreader.ingestLoop ["line1", "line2"] [ReadResult.err "read failure"] =
      { shutdownErr := some "read failure", linesRemaining := [], blocksClosed := true } ∧
    Mindreader.ingestLoop ["line1", "line2"] [ReadResult.eof] =
      { shutdownErr := none, linesRemaining := ["line1", "line2"], blocksClosed := true } :=
  ⟨rfl, rfl⟩

/-- C4 counterexample: scenario S5 does not produce 7 uploadable one-block
writes as claimed — the repository test
`TestArchiver_OldBlockToNewBlocksPassThrough` asserts 8, because the pending
old block is flushed out of the mergeable lane to the uploadable lane when the
first fresh block arrives. -/
theorem storeBlock_s5_counterexample :
    s5Writes ≠
      { mergeableStores := 1, uploadableStores := 7, merges := 0, deletions := 0 } := by
  decide

/-- C4 (amended): on one old block followed by 7 fresh blocks, `storeBlock`
produces exactly 1 mergeable-lane write (the old block), 8 uploadable
one-block writes (the 7 fresh blocks plus the old block flushed out of the
mergeable lane at the historical-to-live transition), 0 merges and 0
deletions — the counts asserted by
`TestArchiver_OldBlockToNewBlocksPassThrough`. -/
theorem storeBlock_s5_counts :
    s5Writes =
      { mergeableStores := 1, uploadableStores := 8, merges := 0, deletions := 0 } := by
  decide

/-- C5 counterexample: the `readOneMessage` of `src/mindreader/mindreader.go`
has no start gate — whatever `start_block` was configured (it is handed to the
Archiver, not the ingest loop), a block numbered 5 is pushed into the `blocks`
channel and the head-block-update hook is invoked on it. -/
theorem readOneMessage_no_gate_counterexample :
    Mindreader.readOneMessage 0 true false
      { num := 5, id := 5, previousId := 4, timestamp := 0 } =
      [IngestEvent.headUpdate, IngestEvent.push] := by
  decide

/-- C5 (amended): in the `src/unnamed/part_001` ingest loop a block whose
number is below `start_block` is discarded by the start gate — it is not
pushed and triggers no event at all — and the head-block-update hook is
invoked only for blocks that pass the gate (the
`src/mindreader/mindreader.go` ingest loop has no start gate, as the
counterexample shows). -/
theorem readOneMessage_start_gate (startBlock stopBlock : Nat)
    (hasHeadUpdate terminating : Bool) (b : Blk) :
    (b.num < startBlock →
      Part001.readOneMessage startBlock stopBlock hasHeadUpdate terminating b = []) ∧
    (IngestEvent.headUpdate ∈
        Part001.readOneMessage startBlock stopBlock hasHeadUpdate terminating b →
      startBlock ≤ b.num) := by
  constructor
  · intro h
    simp [Part001.readOneMessage, Part001.startGatePass, Nat.not_le.mpr h]
  · intro h
    by_cases hp : startBlock ≤ b.num
    · exact hp
    · exact absurd h (by simp [Part001.readOneMessage, Part001.startGatePass, hp])

/-- C5 witness: with `start_block = 10`, block 5 is discarded, while block 12
passes the gate and has the hook invoked. -/
theorem readOneMessage_start_gate_witness :
    Part001.readOneMessage 10 0 true false
      { num := 5, id := 5, previousId := 4, timestamp := 0 } = [] ∧
    (10 : Nat) ≤ 12 :=
  ⟨(readOneMessage_start_gate 10 0 true false _).1 (by decide),
   (readOneMessage_start_gate 10 0 true false
      { num := 12, id := 12, previousId := 11, timestamp := 0 }).2 (by decide)⟩

/-- C6: in `readOneMessage` of `src/mindreader/mindreader.go` every read block
is pushed into the `blocks` channel; the non-blocking nil shutdown is
requested exactly when `stop_block` is non-zero, the block number has reached
`stop_block` and the plugin is not already terminating; and the push always
precedes the shutdown request, so the stop block itself is delivered
downstream before shutdown is requested. -/
theorem readOneMessage_push_before_shutdown (stopBlock : Nat)
    (hasHeadUpdate terminating : Bool) (b : Blk) :
    IngestEvent.push ∈ Mindreader.readOneMessage stopBlock hasHeadUpdate terminating b ∧
    (IngestEvent.shutdown ∈ Mindreader.readOneMessage stopBlock hasHeadUpdate terminating b ↔
      (stopBlock ≠ 0 ∧ stopBlock ≤ b.num ∧ terminating = false)) ∧
    List.indexOf IngestEvent.push
        (Mindreader.readOneMessage stopBlock hasHeadUpdate terminating b) <
      List.indexOf IngestEvent.shutdown
        (Mindreader.readOneMessage stopBlock hasHeadUpdate terminating b) := by
  by_cases hc : stopBlock ≠ 0 ∧ stopBlock ≤ b.num ∧ terminating = false <;>
    cases hasHeadUpdate <;>
      refine ⟨?_, ?_, ?_⟩ <;>
        simp [Mindreader.readOneMessage, hc, List.indexOf, List.findIdx, List.findIdx.go] <;>
          decide

/-- C7: `LogLine` of `src/mindreader/mindreader.go` drops the line without
enqueuing once the terminating flag is set, and enqueues it on the `lines`
channel before the flag is set. -/
theorem logLine_terminating_behavior (lines : List String) (line : String) :
    Mindreader.logLine true lines line = lines ∧
    Mindreader.logLine false lines line = lines ++ [line] :=
  ⟨rfl, rfl⟩

/-- C8 counterexample: after exactly 5 consecutive `GetInfo` failures the
monitor of `src/unnamed/part_000` leaves readiness on — the code clears it
only when the counter exceeds 5, so readiness is not cleared when the count
reaches 5 as claimed. -/
theorem monitor_five_failures_counterexample :
    List.foldl (Nodeos.monitorTick 0) { failCount := 0, ready := true }
      (List.replicate 5 Nodeos.failTick) =
      { failCount := 5, ready := true } := by
  decide

/-- C8 (amended): in the monitor loop, a `GetInfo` failure while the node runs
increments the consecutive-failure counter, and readiness is off afterwards
exactly when the incremented counter exceeds 5 (first cleared on the 6th
consecutive failure) or readiness was already off; the counter is reset to
zero whenever the node is not running and on every successful `GetInfo`. -/
theorem monitorTick_failure_threshold (maxLatency : Nat)
    (st : Nodeos.MonState) (t : Nodeos.Tick) :
    (t.running = true → t.getInfoOk = false →
      (Nodeos.monitorTick maxLatency st t).failCount = st.failCount + 1) ∧
    (t.running = true → t.getInfoOk = false →
      ((Nodeos.monitorTick maxLatency st t).ready = false ↔
        (5 < st.failCount + 1 ∨ st.ready = false))) ∧
    (t.running = false → Nodeos.monitorTick maxLatency st t = { st with failCount := 0 }) ∧
    (t.running = true → t.getInfoOk = true →
      (Nodeos.monitorTick maxLatency st t).failCount = 0) := by
  refine ⟨?_, ?_, ?_, ?_⟩
  · intro hr hok
    simp [Nodeos.monitorTick, hr, hok]
  · intro hr hok
    by_cases h5 : 5 < st.failCount + 1 <;>
      simp [Nodeos.monitorTick, hr, hok, h5]
  · intro hr
    simp [Nodeos.monitorTick, hr]
  · intro hr hok
    simp [Nodeos.monitorTick, hr, hok]

/-- C8 witness: a 6th consecutive failure (counter at 5) increments the
counter to 6 and turns readiness off. -/
theorem monitorTick_failure_threshold_witness :
    (Nodeos.monitorTick 0 { failCount := 5, ready := true } Nodeos.failTick).failCount = 5 + 1 ∧
    ((Nodeos.monitorTick 0 { failCount := 5, ready := true } Nodeos.failTick).ready = false ↔
      (5 < 5 + 1 ∨ (true : Bool) = false)) :=
  ⟨(monitorTick_failure_threshold 0 { failCount := 5, ready := true } Nodeos.failTick).1 rfl rfl,
   (monitorTick_failure_threshold 0 { failCount := 5, ready := true } Nodeos.failTick).2.1 rfl rfl⟩

/-- C9 counterexample: on a successful `GetInfo` with the time since the head
block equal to the configured max latency (10 = 10), the monitor does not set
readiness on — the code uses a strict comparison, contradicting the claimed
at-most (≤) condition. -/
theorem monitor_latency_boundary_counterexample :
    (Nodeos.monitorTick 10 { failCount := 0, ready := false }
      { running := true, getInfoOk := true, timeSinceHead := 10 }).ready = false := by
  decide

/-- C9 (amended): on every successful `GetInfo` while the node runs,
readiness is on afterwards exactly when the configured max latency is zero,
or the time since the head block is strictly less than the max latency, or
readiness was already on (in particular readiness is left unchanged when the
latency condition fails). -/
theorem monitorTick_success_readiness (maxLatency : Nat)
    (st : Nodeos.MonState) (t : Nodeos.Tick)
    (hr : t.running = true) (hok : t.getInfoOk = true) :
    ((Nodeos.monitorTick maxLatency st t).ready = true ↔
      (maxLatency = 0 ∨ t.timeSinceHead < maxLatency ∨ st.ready = true)) := by
  by_cases hcond : maxLatency = 0 ∨ t.timeSinceHead < maxLatency
  · simp [Nodeos.monitorTick, hr, hok, hcond]
    tauto
  · simp [Nodeos.monitorTick, hr, hok, hcond]
    tauto

/-- C9 witness: time since head 9 against max latency 10 turns readiness on. -/
theorem monitorTick_success_readiness_witness :
    (Nodeos.monitorTick 10 { failCount := 3, ready := false }
      { running := true, getInfoOk := true, timeSinceHead := 9 }).ready = true :=
  (monitorTick_success_readiness 10 { failCount := 3, ready := false }
    { running := true, getInfoOk := true, timeSinceHead := 9 } rfl rfl).mpr
    (Or.inr (Or.inl (by decide)))

/-- C10 counterexample: the two `validateOneBlockSuffix` implementations
disagree on the empty string — the `src/mindreader/mindreader.go` version
rejects it while the `src/unnamed/part_001` version accepts it. -/
theorem validateOneBlockSuffix_empty_counterexample :
    (Mindreader.validateOneBlockSuffix "").isSome = true ∧
    (Part001.validateOneBlockSuffix "").isSome = false := by
  constructor <;> decide

/-- C10 (amended): the two `validateOneBlockSuffix` implementations agree on
every non-empty suffix — they return an error for exactly the same non-empty
strings (they differ only on the empty string, as the counterexample shows). -/
theorem validateOneBlockSuffix_agree_nonempty (s : String) (h : s ≠ "") :
    (Mindreader.validateOneBlockSuffix s).isSome =
      (Part001.validateOneBlockSuffix s).isSome := by
  unfold Mindreader.validateOneBlockSuffix Part001.validateOneBlockSuffix
  rw [if_neg h]
  by_cases hm : oneblockSuffixMatch s = false
  · rw [if_pos hm, if_pos ⟨h, hm⟩]
  · rw [if_neg hm, if_neg (fun hc => hm hc.2)]

/-- C10 witness: both implementations accept the concrete suffix
`suffix-1`. -/
theorem validateOneBlockSuffix_agree_nonempty_witness :
    (Mindreader.validateOneBlockSuffix "suffix-1").isSome =
      (Part001.validateOneBlockSuffix "suffix-1").isSome :=
  validateOneBlockSuffix_agree_nonempty "suffix-1" (by decide)
